import Mathlib

/-!
Verification of demo-webgl-edges: a WebGL webcam edge-detection demo.

This file shallowly embeds the two demo variants (`edges.js` and
`src/simple-1/index.js`): the GLSL shader arithmetic (over ℚ), the GPU
resource builders, and the render loop with its context-loss state
machine, modelled as a step function over an explicit loop state that
also records the trace of GL calls each step issues.
-/

/-- A GLSL `vec4` color value, components as rationals. -/
structure Vec4 where
  r : ℚ
  g : ℚ
  b : ℚ
  a : ℚ
deriving DecidableEq, Repr

/-- Componentwise addition, as GLSL `+` on `vec4`. -/
def Vec4.add (u v : Vec4) : Vec4 :=
  ⟨u.r + v.r, u.g + v.g, u.b + v.b, u.a + v.a⟩

/-- Componentwise subtraction, as GLSL `-` on `vec4`. -/
def Vec4.sub (u v : Vec4) : Vec4 :=
  ⟨u.r - v.r, u.g - v.g, u.b - v.b, u.a - v.a⟩

/-- Componentwise absolute value, as GLSL `abs` on `vec4`. -/
def Vec4.abs (u : Vec4) : Vec4 :=
  ⟨|u.r|, |u.g|, |u.b|, |u.a|⟩

/-- A texture as a pure sampling function: `texture2D(sampler, coord)`. -/
def Tex : Type := ℚ × ℚ → Vec4

/-- `getDeltaX` from the fragment shader of `edges.js`:
`texture2D(sampler, coord + vec2(uSteps.x, 0)) - texture2D(sampler, coord - vec2(uSteps.x, 0))`. -/
def getDeltaX (sampler : Tex) (uSteps coord : ℚ × ℚ) : Vec4 :=
  Vec4.sub (sampler (coord.1 + uSteps.1, coord.2)) (sampler (coord.1 - uSteps.1, coord.2))

/-- `getDeltaY` from the fragment shader of `edges.js`. -/
def getDeltaY (sampler : Tex) (uSteps coord : ℚ × ℚ) : Vec4 :=
  Vec4.sub (sampler (coord.1, coord.2 + uSteps.2)) (sampler (coord.1, coord.2 - uSteps.2))

/-- `getDelta` from the fragment shader of `edges.js`:
`abs(getDeltaX(...)) + abs(getDeltaY(...))`. -/
def getDelta (sampler : Tex) (uSteps coord : ℚ × ℚ) : Vec4 :=
  Vec4.add (Vec4.abs (getDeltaX sampler uSteps coord)) (Vec4.abs (getDeltaY sampler uSteps coord))

/-- `main` of the `edges.js` fragment shader (two-pass delta form): the output
pixel for a given texture, step uniform and interpolated texture coordinate. -/
def edgesFragment (sampler : Tex) (uSteps coord : ℚ × ℚ) : Vec4 :=
  let color := getDelta sampler uSteps coord
  let value := 1 - max (max color.r color.g) color.b
  ⟨value, value, value, 1⟩

/-- The four `vSampleCoords` computed by the vertex shader of
`src/simple-1/index.js` at a vertex with texture coordinate `aTexCoord`
(affine in `aTexCoord`, hence equal to this at the interpolated fragment
coordinate too). -/
def simple1SampleCoords (uSteps aTexCoord : ℚ × ℚ) : Fin 4 → ℚ × ℚ
  | 0 => (aTexCoord.1 + uSteps.1, aTexCoord.2)
  | 1 => (aTexCoord.1 - uSteps.1, aTexCoord.2)
  | 2 => (aTexCoord.1, aTexCoord.2 + uSteps.2)
  | 3 => (aTexCoord.1, aTexCoord.2 - uSteps.2)

/-- `main` of the `src/simple-1/index.js` fragment shader (4-tap form), taking
the interpolated `vSampleCoords` varying. -/
def simple1Fragment (sampler : Tex) (vSampleCoords : Fin 4 → ℚ × ℚ) : Vec4 :=
  let p0 := sampler (vSampleCoords 0)
  let p1 := sampler (vSampleCoords 1)
  let p2 := sampler (vSampleCoords 2)
  let p3 := sampler (vSampleCoords 3)
  let color := Vec4.add (Vec4.abs (Vec4.sub p1 p0)) (Vec4.abs (Vec4.sub p2 p3))
  let value := 1 - max (max color.r color.g) color.b
  ⟨value, value, value, 1⟩

/-- The composed simple-1 pipeline at a fragment: vertex stage precomputes the
four neighbor coordinates, fragment stage samples and combines them. -/
def simple1Pixel (sampler : Tex) (uSteps coord : ℚ × ℚ) : Vec4 :=
  simple1Fragment sampler (simple1SampleCoords uSteps coord)

/-- Per-channel `|Δx| + |Δy|`, stated from the spec's words: the horizontal
neighbor difference plus the vertical neighbor difference of one channel. -/
def specChannelDelta (f : Vec4 → ℚ) (sampler : Tex) (uSteps coord : ℚ × ℚ) : ℚ :=
  |f (sampler (coord.1 + uSteps.1, coord.2)) - f (sampler (coord.1 - uSteps.1, coord.2))| +
  |f (sampler (coord.1, coord.2 + uSteps.2)) - f (sampler (coord.1, coord.2 - uSteps.2))|

/-- The spec's output formula: 1 minus the componentwise maximum over R, G, B
of `|Δx| + |Δy|`. -/
def specEdgeValue (sampler : Tex) (uSteps coord : ℚ × ℚ) : ℚ :=
  1 - max (max (specChannelDelta Vec4.r sampler uSteps coord)
               (specChannelDelta Vec4.g sampler uSteps coord))
          (specChannelDelta Vec4.b sampler uSteps coord)

/-- The simple-1 fragment color equals the `getDelta` color of `edges.js`:
`abs(p1 - p0) = abs(p0 - p1)` componentwise. -/
lemma simple1_color_eq_getDelta (sampler : Tex) (uSteps coord : ℚ × ℚ) :
    Vec4.add
      (Vec4.abs (Vec4.sub (sampler (simple1SampleCoords uSteps coord 1))
                          (sampler (simple1SampleCoords uSteps coord 0))))
      (Vec4.abs (Vec4.sub (sampler (simple1SampleCoords uSteps coord 2))
                          (sampler (simple1SampleCoords uSteps coord 3))))
      = getDelta sampler uSteps coord := by
  simp only [simple1SampleCoords, getDelta, getDeltaX, getDeltaY, Vec4.add, Vec4.sub, Vec4.abs]
  rw [Vec4.mk.injEq]
  refine ⟨?_, ?_, ?_, ?_⟩ <;> rw [abs_sub_comm]

/-- The two pipelines agree at every fragment. -/
lemma simple1Pixel_eq_edgesFragment (sampler : Tex) (uSteps coord : ℚ × ℚ) :
    simple1Pixel sampler uSteps coord = edgesFragment sampler uSteps coord := by
  simp only [simple1Pixel, simple1Fragment, edgesFragment]
  rw [simple1_color_eq_getDelta]

/-- C3: the 4-tap form (`simple-1`, vertex-stage precomputed neighbor
coordinates) and the two-pass delta form (`edges.js`, helper sampling
functions) compute the same output pixel for the same texture, sample
coordinate and step vector, and both equal 1 minus the componentwise maximum
over R, G, B of `|Δx| + |Δy|` (grayscale, alpha 1). -/
theorem C3_two_shader_forms_agree (sampler : Tex) (uSteps coord : ℚ × ℚ) :
    edgesFragment sampler uSteps coord = simple1Pixel sampler uSteps coord ∧
    edgesFragment sampler uSteps coord =
      ⟨specEdgeValue sampler uSteps coord, specEdgeValue sampler uSteps coord,
       specEdgeValue sampler uSteps coord, 1⟩ := by
  refine ⟨(simple1Pixel_eq_edgesFragment sampler uSteps coord).symm, ?_⟩
  simp only [edgesFragment, specEdgeValue, specChannelDelta, getDelta, getDeltaX, getDeltaY,
    Vec4.add, Vec4.sub, Vec4.abs]

/-- C5: if all four neighbor samples are equal (zero spatial gradient) both
shader variants output 1 (white) in every color channel; if the combined
delta saturates at 1 in its largest channel both output 0 (black); and in
both variants the output is grayscale with alpha exactly 1. -/
theorem C5_edge_inversion_extremes (sampler : Tex) (uSteps coord : ℚ × ℚ) :
    ((sampler (coord.1 + uSteps.1, coord.2) = sampler (coord.1 - uSteps.1, coord.2) ∧
      sampler (coord.1 - uSteps.1, coord.2) = sampler (coord.1, coord.2 + uSteps.2) ∧
      sampler (coord.1, coord.2 + uSteps.2) = sampler (coord.1, coord.2 - uSteps.2)) →
        edgesFragment sampler uSteps coord = ⟨1, 1, 1, 1⟩ ∧
        simple1Pixel sampler uSteps coord = ⟨1, 1, 1, 1⟩) ∧
    (max (max (getDelta sampler uSteps coord).r (getDelta sampler uSteps coord).g)
         (getDelta sampler uSteps coord).b = 1 →
        edgesFragment sampler uSteps coord = ⟨0, 0, 0, 1⟩ ∧
        simple1Pixel sampler uSteps coord = ⟨0, 0, 0, 1⟩) ∧
    ((edgesFragment sampler uSteps coord).r = (edgesFragment sampler uSteps coord).g ∧
     (edgesFragment sampler uSteps coord).g = (edgesFragment sampler uSteps coord).b ∧
     (edgesFragment sampler uSteps coord).a = 1 ∧
     (simple1Pixel sampler uSteps coord).r = (simple1Pixel sampler uSteps coord).g ∧
     (simple1Pixel sampler uSteps coord).g = (simple1Pixel sampler uSteps coord).b ∧
     (simple1Pixel sampler uSteps coord).a = 1) := by
  refine ⟨?_, ?_, ?_⟩
  · rintro ⟨h01, h12, h23⟩
    have e : edgesFragment sampler uSteps coord = ⟨1, 1, 1, 1⟩ := by
      simp only [edgesFragment, getDelta, getDeltaX, getDeltaY, Vec4.add, Vec4.sub, Vec4.abs]
      rw [h01, h12, h23]
      simp
    exact ⟨e, by rw [simple1Pixel_eq_edgesFragment]; exact e⟩
  · intro hmax
    have e : edgesFragment sampler uSteps coord = ⟨0, 0, 0, 1⟩ := by
      simp only [edgesFragment]
      rw [hmax]
      simp
    exact ⟨e, by rw [simple1Pixel_eq_edgesFragment]; exact e⟩
  · exact ⟨rfl, rfl, rfl, rfl, rfl, rfl⟩

/-- A constant (zero-gradient) synthetic texture. -/
def texFlat : Tex := fun _ => ⟨1/2, 1/3, 1/4, 1⟩

/-- A synthetic texture whose red channel is the x coordinate, giving a
horizontal delta that saturates at 1 for step 1/2. -/
def texRamp : Tex := fun p => ⟨p.1, 0, 0, 1⟩

/-- Witness for C5 at concrete textures: the flat texture renders white, the
saturating ramp renders black, in both variants. -/
theorem C5_edge_inversion_extremes_witness :
    edgesFragment texFlat (1, 1) (0, 0) = ⟨1, 1, 1, 1⟩ ∧
    simple1Pixel texFlat (1, 1) (0, 0) = ⟨1, 1, 1, 1⟩ ∧
    edgesFragment texRamp (1/2, 0) (0, 0) = ⟨0, 0, 0, 1⟩ ∧
    simple1Pixel texRamp (1/2, 0) (0, 0) = ⟨0, 0, 0, 1⟩ := by
  have hflat := (C5_edge_inversion_extremes texFlat (1, 1) (0, 0)).1 ⟨rfl, rfl, rfl⟩
  have hramp := (C5_edge_inversion_extremes texRamp (1/2, 0) (0, 0)).2.1 (by
    norm_num [getDelta, getDeltaX, getDeltaY, Vec4.sub, Vec4.abs, Vec4.add, texRamp])
  exact ⟨hflat.1, hflat.2, hramp.1, hramp.2⟩

/-- Texture filtering modes used by the two variants. -/
inductive FilterMode where
  | linear
  | nearest
deriving DecidableEq, Repr

/-- Texture coordinate wrapping modes. -/
inductive WrapMode where
  | clampToEdge
  | repeated
deriving DecidableEq, Repr

/-- An RGBA texel as four byte values. -/
def Texel : Type := Nat × Nat × Nat × Nat

instance : DecidableEq Texel := by
  unfold Texel
  infer_instance

/-- A GPU texture object: sampling parameters plus current image. -/
structure Texture where
  minFilter : FilterMode
  magFilter : FilterMode
  wrapS : WrapMode
  wrapT : WrapMode
  width : Nat
  height : Nat
  texels : List Texel
deriving DecidableEq

/-- `buildVideoTexture` of `edges.js`: LINEAR filtering, CLAMP_TO_EDGE on both
axes, image initialized to the single texel `[0, 0, 0, 255]` (1×1 RGBA). -/
def buildVideoTexture : Texture :=
  { minFilter := .linear
    magFilter := .linear
    wrapS := .clampToEdge
    wrapT := .clampToEdge
    width := 1
    height := 1
    texels := [(0, 0, 0, 255)] }

/-- `buildVideoTexture` of `src/simple-1/index.js`: identical except NEAREST
filtering. -/
def simple1BuildVideoTexture : Texture :=
  { minFilter := .nearest
    magFilter := .nearest
    wrapS := .clampToEdge
    wrapT := .clampToEdge
    width := 1
    height := 1
    texels := [(0, 0, 0, 255)] }

/-- The vertex data of `buildVertices` (both variants), in source order:
POSITION_X, POSITION_Y, TEXCOORD_X, TEXCOORD_Y per vertex. -/
def verticesData : List ℚ :=
  [-1, -1, 0, 1] ++ [1, -1, 1, 1] ++ [1, 1, 1, 0] ++ [-1, 1, 0, 0]

/-- An attribute pointer configuration from `useVertices`:
(component count, stride in bytes, offset in bytes). -/
structure AttribPointer where
  size : Nat
  strideBytes : Nat
  offsetBytes : Nat
deriving DecidableEq

/-- `gl.vertexAttribPointer(programInfo.aPosition, 2, gl.FLOAT, false, 16, 0)`. -/
def aPositionPointer : AttribPointer := ⟨2, 16, 0⟩

/-- `gl.vertexAttribPointer(programInfo.aTexCoord, 2, gl.FLOAT, false, 16, 8)`. -/
def aTexCoordPointer : AttribPointer := ⟨2, 16, 8⟩

/-- Component `k` of attribute `ptr` at vertex `i`, read from the interleaved
float array (4 bytes per float). -/
def attribValue (ptr : AttribPointer) (i k : Nat) : ℚ :=
  verticesData.getD (ptr.strideBytes / 4 * i + ptr.offsetBytes / 4 + k) 0

/-- The clip-space position of vertex `i`. -/
def vertexPosition (i : Nat) : ℚ × ℚ :=
  (attribValue aPositionPointer i 0, attribValue aPositionPointer i 1)

/-- The texture coordinate of vertex `i`. -/
def vertexTexCoord (i : Nat) : ℚ × ℚ :=
  (attribValue aTexCoordPointer i 0, attribValue aTexCoordPointer i 1)

/-- Twice the signed area (shoelace sum) of the quad in vertex order; positive
means counter-clockwise winding. -/
def quadShoelace : ℚ :=
  let p := fun i => vertexPosition i
  ((p 0).1 * (p 1).2 - (p 1).1 * (p 0).2) +
  ((p 1).1 * (p 2).2 - (p 2).1 * (p 1).2) +
  ((p 2).1 * (p 3).2 - (p 3).1 * (p 2).2) +
  ((p 3).1 * (p 0).2 - (p 0).1 * (p 3).2)

/-- Twice the signed area of fan triangle (v0, vi, vj). -/
def fanTriangleArea2 (i j : Nat) : ℚ :=
  let a := vertexPosition 0
  let b := vertexPosition i
  let c := vertexPosition j
  (b.1 - a.1) * (c.2 - a.2) - (c.1 - a.1) * (b.2 - a.2)

/-- Draw primitive modes (only TRIANGLE_FAN is used). -/
inductive DrawMode where
  | triangleFan
deriving DecidableEq, Repr

/-- Observable GL/scheduler actions issued by the render loop, in order. -/
inductive Event where
  | useProgramCall
  | bindVertices
  | bindTexture
  | setStepUniform (w h : Nat)
  | setCanvasSize (w h : Nat)
  | setViewport (w h : Nat)
  | uploadVideoFrame
  | draw (mode : DrawMode) (first count : Nat)
  | scheduleFrame
  | cancelFrame
  | buildProgramCall
  | buildGeometryCall
  | buildTextureCall
deriving DecidableEq, Repr

/-- The value `uniform2f(uSteps, 1/w, 1/h)` passes for canvas size `w × h`
(recorded in `Event.setStepUniform` by the dimensions used). -/
def stepUniformValue (w h : Nat) : ℚ × ℚ :=
  (1 / (w : ℚ), 1 / (h : ℚ))

/-- The video element as the render loop observes it: `readyState`
(`HAVE_CURRENT_DATA = 2` gates the upload), intrinsic dimensions, and the
current frame's pixel data. -/
structure VideoState where
  readyState : Nat
  videoWidth : Nat
  videoHeight : Nat
  frameTexels : List Texel
deriving DecidableEq

/-- The mutable closure state of `main` in `edges.js`: whether an animation
frame is pending (`animationFrameId ≠ 0`), whether the GL context is lost
(result of `gl.isContextLost()`), the canvas dimensions, the video texture's
current content, and a counter of resource (re)builds. -/
structure LoopState where
  scheduled : Bool
  contextLost : Bool
  canvasWidth : Nat
  canvasHeight : Nat
  videoTexture : Texture
  resourcesGen : Nat
deriving DecidableEq

/-- Result of one `paint` callback: the GL calls issued, the state afterwards,
and whether the callback threw a fatal draw-time error. -/
structure PaintResult where
  events : List Event
  state : LoopState
  fatal : Bool
deriving DecidableEq

/-- `paint` of `edges.js` (identical in `simple-1`): clears the pending-frame
id, binds program/geometry/texture, sets the step uniform from the canvas
size, then — only when `video.readyState >= 2` — resizes the canvas to the
video, sets the viewport and uploads the frame, issues the draw, checks
`getError` (escalating unless `isContextLost()`), and schedules the next
frame. `glError` is the value `gl.getError()` returns after the draw. -/
def paint (s : LoopState) (v : VideoState) (glError : Nat) : PaintResult :=
  let s1 := { s with scheduled := false }
  let upload := 2 ≤ v.readyState
  let s2 :=
    if upload then
      { s1 with
        canvasWidth := v.videoWidth
        canvasHeight := v.videoHeight
        videoTexture := { s1.videoTexture with
          width := v.videoWidth
          height := v.videoHeight
          texels := v.frameTexels } }
    else s1
  let events :=
    [Event.useProgramCall, Event.bindVertices, Event.bindTexture,
     Event.setStepUniform s1.canvasWidth s1.canvasHeight] ++
    (if upload then
      [Event.setCanvasSize v.videoWidth v.videoHeight,
       Event.setViewport v.videoWidth v.videoHeight,
       Event.uploadVideoFrame]
     else []) ++
    [Event.draw .triangleFan 0 4]
  if glError ≠ 0 ∧ s.contextLost = false then
    { events := events, state := s2, fatal := true }
  else
    { events := events ++ [Event.scheduleFrame]
      state := { s2 with scheduled := true }
      fatal := false }

/-- `start` of `edges.js`: rebuilds program, program info, geometry and video
texture (a fresh resource generation) and schedules the first frame. -/
def start (s : LoopState) : List Event × LoopState :=
  ([Event.buildProgramCall, Event.buildGeometryCall, Event.buildTextureCall,
    Event.scheduleFrame],
   { s with
      scheduled := true
      resourcesGen := s.resourcesGen + 1
      videoTexture := buildVideoTexture })

/-- External stimuli driving the loop: the two context events and the
browser's animation-frame callback delivery (which carries the video state
and the post-draw `getError` result for that frame). -/
inductive Ev where
  | contextLostSignal
  | contextRestoredSignal
  | frameCallback (v : VideoState) (glError : Nat)
deriving DecidableEq

/-- One step of the event machine. A context-loss signal is delivered with
`isContextLost()` already true; `onContextLost` cancels the pending frame.
`onContextRestored` runs `start`. A frame callback runs `paint` only if a
frame is actually scheduled (a cancelled callback never fires). -/
def stepEv (s : LoopState) : Ev → List Event × LoopState
  | .contextLostSignal =>
      ([Event.cancelFrame], { s with scheduled := false, contextLost := true })
  | .contextRestoredSignal =>
      start { s with contextLost := false }
  | .frameCallback v glError =>
      if s.scheduled then
        ((paint s v glError).events, (paint s v glError).state)
      else ([], s)

/-- Run a sequence of stimuli, concatenating the traces. -/
def runEvents (s : LoopState) : List Ev → List Event × LoopState
  | [] => ([], s)
  | e :: es =>
      let r1 := stepEv s e
      let r2 := runEvents r1.2 es
      (r1.1 ++ r2.1, r2.2)

/-- Is this event a draw call? -/
def isDrawEvent : Event → Bool
  | .draw _ _ _ => true
  | _ => false

/-- Does the trace contain a draw call? -/
def hasDraw (tr : List Event) : Bool :=
  tr.any isDrawEvent

/-- Is this event the per-frame video texture upload? -/
def isUploadEvent : Event → Bool
  | .uploadVideoFrame => true
  | _ => false

/-- Is this event the step-uniform update? -/
def isStepUniformEvent : Event → Bool
  | .setStepUniform _ _ => true
  | _ => false

lemma runEvents_cons (s : LoopState) (e : Ev) (es : List Ev) :
    runEvents s (e :: es) =
      ((stepEv s e).1 ++ (runEvents (stepEv s e).2 es).1,
       (runEvents (stepEv s e).2 es).2) := rfl

lemma runEvents_append (s : LoopState) (l1 l2 : List Ev) :
    runEvents s (l1 ++ l2) =
      ((runEvents s l1).1 ++ (runEvents (runEvents s l1).2 l2).1,
       (runEvents (runEvents s l1).2 l2).2) := by
  induction l1 generalizing s with
  | nil => simp [runEvents]
  | cons e es ih =>
      simp only [List.cons_append, runEvents_cons, ih, List.append_assoc]

/-- While no frame is scheduled, any stimulus sequence free of restoration
signals issues no draw call and leaves the loop unscheduled. -/
lemma noDraw_of_unscheduled (s : LoopState) (evs : List Ev)
    (hs : s.scheduled = false)
    (hres : ∀ e ∈ evs, e ≠ Ev.contextRestoredSignal) :
    hasDraw (runEvents s evs).1 = false ∧ (runEvents s evs).2.scheduled = false := by
  induction evs generalizing s with
  | nil => exact ⟨rfl, hs⟩
  | cons e es ih =>
      cases e with
      | contextLostSignal =>
          have h' := ih { s with scheduled := false, contextLost := true } rfl
            (fun e he => hres e (List.mem_cons_of_mem _ he))
          rw [runEvents_cons]
          exact ⟨by simpa [stepEv, hasDraw, isDrawEvent] using h'.1, h'.2⟩
      | contextRestoredSignal =>
          exact absurd rfl (hres _ (List.mem_cons_self _ _))
      | frameCallback v glError =>
          have h' := ih s hs (fun e he => hres e (List.mem_cons_of_mem _ he))
          rw [runEvents_cons]
          simp only [stepEv, hs]
          exact ⟨by simpa [hasDraw] using h'.1, h'.2⟩

/-- C1: delivering a context-loss signal cancels the pending frame; from the
lost state no draw call is issued by any stimulus sequence free of
restoration signals; and when a restoration signal arrives, the program,
geometry and texture rebuilds (followed by the schedule) enter the trace
before anything the subsequent stimuli produce, the preceding trace being
draw-free. -/
theorem C1_context_loss_suspends_draws :
    (∀ s : LoopState,
        (stepEv s Ev.contextLostSignal).2.scheduled = false ∧
        (stepEv s Ev.contextLostSignal).2.contextLost = true ∧
        (stepEv s Ev.contextLostSignal).1 = [Event.cancelFrame]) ∧
    (∀ (s : LoopState) (evs : List Ev),
        s.contextLost = true → s.scheduled = false →
        (∀ e ∈ evs, e ≠ Ev.contextRestoredSignal) →
        hasDraw (runEvents s evs).1 = false) ∧
    (∀ (s : LoopState) (evs1 evs2 : List Ev),
        s.contextLost = true → s.scheduled = false →
        (∀ e ∈ evs1, e ≠ Ev.contextRestoredSignal) →
        hasDraw (runEvents s evs1).1 = false ∧
        (runEvents s (evs1 ++ Ev.contextRestoredSignal :: evs2)).1 =
          (runEvents s evs1).1 ++
          ([Event.buildProgramCall, Event.buildGeometryCall, Event.buildTextureCall,
            Event.scheduleFrame] ++
           (runEvents (stepEv (runEvents s evs1).2 Ev.contextRestoredSignal).2 evs2).1)) := by
  refine ⟨fun s => ⟨rfl, rfl, rfl⟩, ?_, ?_⟩
  · intro s evs _ hsched hres
    exact (noDraw_of_unscheduled s evs hsched hres).1
  · intro s evs1 evs2 _ hsched hres
    refine ⟨(noDraw_of_unscheduled s evs1 hsched hres).1, ?_⟩
    rw [runEvents_append, runEvents_cons]
    simp [stepEv, start]

/-- A concrete running state (default canvas 300×150, resources built once). -/
def testRunning : LoopState :=
  { scheduled := true, contextLost := false, canvasWidth := 300, canvasHeight := 150,
    videoTexture := buildVideoTexture, resourcesGen := 1 }

/-- The concrete state after a context-loss signal in `testRunning`. -/
def testLost : LoopState :=
  { scheduled := false, contextLost := true, canvasWidth := 300, canvasHeight := 150,
    videoTexture := buildVideoTexture, resourcesGen := 1 }

/-- A video element before any data has been decoded. -/
def vidNotReady : VideoState :=
  { readyState := 0, videoWidth := 0, videoHeight := 0, frameTexels := [] }

/-- A video element with a decoded 2×1 frame available. -/
def vidReady : VideoState :=
  { readyState := 4, videoWidth := 2, videoHeight := 1,
    frameTexels := [(10, 20, 30, 255), (40, 50, 60, 255)] }

/-- Witness for C1 at concrete inputs: losing the context from `testRunning`
cancels the frame; two further non-restoration stimuli draw nothing; and a
restoration after them puts the three rebuilds into the trace right after
the draw-free prefix. -/
theorem C1_context_loss_suspends_draws_witness :
    (stepEv testRunning Ev.contextLostSignal).2.scheduled = false ∧
    hasDraw (runEvents testLost
      [Ev.frameCallback vidReady 0, Ev.contextLostSignal]).1 = false ∧
    (runEvents testLost
      ([Ev.frameCallback vidReady 0, Ev.contextLostSignal] ++
        Ev.contextRestoredSignal :: [Ev.frameCallback vidReady 0])).1 =
      (runEvents testLost [Ev.frameCallback vidReady 0, Ev.contextLostSignal]).1 ++
      ([Event.buildProgramCall, Event.buildGeometryCall, Event.buildTextureCall,
        Event.scheduleFrame] ++
       (runEvents
         (stepEv (runEvents testLost
            [Ev.frameCallback vidReady 0, Ev.contextLostSignal]).2
           Ev.contextRestoredSignal).2
         [Ev.frameCallback vidReady 0]).1) := by
  refine ⟨(C1_context_loss_suspends_draws.1 testRunning).1, ?_, ?_⟩
  · exact C1_context_loss_suspends_draws.2.1 testLost
      [Ev.frameCallback vidReady 0, Ev.contextLostSignal] rfl rfl (by decide)
  · exact (C1_context_loss_suspends_draws.2.2 testLost
      [Ev.frameCallback vidReady 0, Ev.contextLostSignal]
      [Ev.frameCallback vidReady 0] rfl rfl (by decide)).2

/-- A running state whose canvas (100×100) does not match the incoming video,
exposing which canvas size feeds the step uniform. -/
def testStale : LoopState :=
  { scheduled := true, contextLost := false, canvasWidth := 100, canvasHeight := 100,
    videoTexture := buildVideoTexture, resourcesGen := 1 }

/-- C2 counterexample: in a ready-video frame the step uniform is set from
the canvas size as it was at the start of the callback (100×100, not the
video's 2×1), and the texture update comes strictly after the step-uniform
update, not before it as the claimed step order requires. -/
theorem C2_frame_step_order_counterexample :
    (paint testStale vidReady 0).events =
      [Event.useProgramCall, Event.bindVertices, Event.bindTexture,
       Event.setStepUniform 100 100,
       Event.setCanvasSize 2 1, Event.setViewport 2 1, Event.uploadVideoFrame,
       Event.draw .triangleFan 0 4, Event.scheduleFrame] ∧
    ((paint testStale vidReady 0).events.any isUploadEvent = true ∧
     ¬ (paint testStale vidReady 0).events.findIdx isUploadEvent <
       (paint testStale vidReady 0).events.findIdx isStepUniformEvent) := by
  decide

/-- C2 (amended): each scheduled callback binds the program, binds the
geometry, binds the texture, sets the step uniform from the canvas size as
of the start of the frame, then — if the video is ready — resizes the canvas
to the video, sets the viewport and updates the texture, issues the draw
call, and schedules the next callback unless a fatal draw-time error is
raised. -/
theorem C2_frame_step_order (s : LoopState) (v : VideoState) (glError : Nat) :
    (paint s v glError).events =
      [Event.useProgramCall, Event.bindVertices, Event.bindTexture,
       Event.setStepUniform s.canvasWidth s.canvasHeight] ++
      (if 2 ≤ v.readyState then
        [Event.setCanvasSize v.videoWidth v.videoHeight,
         Event.setViewport v.videoWidth v.videoHeight,
         Event.uploadVideoFrame]
       else []) ++
      [Event.draw .triangleFan 0 4] ++
      (if glError ≠ 0 ∧ s.contextLost = false then [] else [Event.scheduleFrame]) := by
  simp only [paint]
  split <;> simp [List.append_assoc]

/-- C4: whenever the video is not ready (`readyState < 2`; in particular when
not even the frame dimensions are decoded, the spec's threshold), the frame
performs no texture upload and leaves the texture content — and the canvas
size — unchanged. -/
theorem C4_upload_skipped_when_not_ready (s : LoopState) (v : VideoState)
    (glError : Nat) (hv : v.readyState < 2) :
    (paint s v glError).events.any isUploadEvent = false ∧
    (paint s v glError).state.videoTexture = s.videoTexture ∧
    (paint s v glError).state.canvasWidth = s.canvasWidth ∧
    (paint s v glError).state.canvasHeight = s.canvasHeight := by
  have h2 : ¬ 2 ≤ v.readyState := Nat.not_le.mpr hv
  simp only [paint, h2]
  split <;> simp [isUploadEvent]

/-- Witness for C4: a frame with an undecoded video performs no upload and
keeps the placeholder texture. -/
theorem C4_upload_skipped_when_not_ready_witness :
    (paint testRunning vidNotReady 0).events.any isUploadEvent = false ∧
    (paint testRunning vidNotReady 0).state.videoTexture = testRunning.videoTexture ∧
    (paint testRunning vidNotReady 0).state.canvasWidth = testRunning.canvasWidth ∧
    (paint testRunning vidNotReady 0).state.canvasHeight = testRunning.canvasHeight :=
  C4_upload_skipped_when_not_ready testRunning vidNotReady 0 (by decide)

/-- C6: when `getError` reports a nonzero code after the draw, the callback
escalates a fatal error exactly when the explicit `isContextLost()` query is
false; when the context is lost the nonzero code is deliberately masked and
no error is raised (the frame even schedules its successor). -/
theorem C6_draw_error_escalation (s : LoopState) (v : VideoState) (glError : Nat)
    (h : glError ≠ 0) :
    (s.contextLost = false → (paint s v glError).fatal = true) ∧
    (s.contextLost = true →
      (paint s v glError).fatal = false ∧
      Event.scheduleFrame ∈ (paint s v glError).events) := by
  constructor
  · intro hc
    simp [paint, h, hc]
  · intro hc
    simp [paint, h, hc]

/-- Witness for C6: a nonzero error code is fatal in a live context and
masked in a lost one. -/
theorem C6_draw_error_escalation_witness :
    (paint testRunning vidReady 1282).fatal = true ∧
    (paint { testRunning with contextLost := true } vidReady 1282).fatal = false ∧
    Event.scheduleFrame ∈
      (paint { testRunning with contextLost := true } vidReady 1282).events := by
  refine ⟨?_, ?_, ?_⟩
  · exact (C6_draw_error_escalation testRunning vidReady 1282 (by decide)).1 rfl
  · exact ((C6_draw_error_escalation { testRunning with contextLost := true }
      vidReady 1282 (by decide)).2 rfl).1
  · exact ((C6_draw_error_escalation { testRunning with contextLost := true }
      vidReady 1282 (by decide)).2 rfl).2

/-- C10: a fatal draw-time error (nonzero `getError` with the context live)
aborts the callback before the next frame is requested, so the loop stays
unscheduled; no draw occurs from an unscheduled state under stimuli free of
restoration signals; and a restoration signal rebuilds program, geometry and
texture and restarts the loop. -/
theorem C10_fatal_error_halts_loop :
    (∀ (s : LoopState) (v : VideoState) (glError : Nat),
        glError ≠ 0 → s.contextLost = false →
        (paint s v glError).fatal = true ∧
        (paint s v glError).state.scheduled = false ∧
        Event.scheduleFrame ∉ (paint s v glError).events) ∧
    (∀ (s : LoopState) (evs : List Ev),
        s.scheduled = false →
        (∀ e ∈ evs, e ≠ Ev.contextRestoredSignal) →
        hasDraw (runEvents s evs).1 = false) ∧
    (∀ s : LoopState,
        (stepEv s Ev.contextRestoredSignal).1 =
          [Event.buildProgramCall, Event.buildGeometryCall, Event.buildTextureCall,
           Event.scheduleFrame] ∧
        (stepEv s Ev.contextRestoredSignal).2.scheduled = true ∧
        (stepEv s Ev.contextRestoredSignal).2.videoTexture = buildVideoTexture) := by
  refine ⟨?_, ?_, fun s => ⟨rfl, rfl, rfl⟩⟩
  · intro s v glError h hc
    rcases Nat.lt_or_ge v.readyState 2 with hup | hup
    · refine ⟨?_, ?_, ?_⟩ <;> simp [paint, h, hc, Nat.not_le.mpr hup]
    · refine ⟨?_, ?_, ?_⟩ <;> simp [paint, h, hc, hup]
  · intro s evs hs hres
    exact (noDraw_of_unscheduled s evs hs hres).1

/-- Witness for C10: a concrete fatal frame leaves the loop unscheduled with
no successor requested, and stimuli without a restoration draw nothing. -/
theorem C10_fatal_error_halts_loop_witness :
    ((paint testRunning vidReady 1282).fatal = true ∧
     (paint testRunning vidReady 1282).state.scheduled = false ∧
     Event.scheduleFrame ∉ (paint testRunning vidReady 1282).events) ∧
    hasDraw (runEvents (paint testRunning vidReady 1282).state
      [Ev.frameCallback vidReady 0, Ev.frameCallback vidNotReady 0]).1 = false := by
  refine ⟨C10_fatal_error_halts_loop.1 testRunning vidReady 1282 (by decide) rfl, ?_⟩
  exact C10_fatal_error_halts_loop.2.1 (paint testRunning vidReady 1282).state
    [Ev.frameCallback vidReady 0, Ev.frameCallback vidNotReady 0]
    (C10_fatal_error_halts_loop.1 testRunning vidReady 1282 (by decide) rfl).2.1
    (by decide)

/-- The GL outcomes `buildProgram`/`buildShader` observe: per-stage compile
status and info logs, link status and log, and the `isContextLost()` result. -/
structure GLBuildEnv where
  vertexCompileOk : Bool
  vertexLog : String
  fragmentCompileOk : Bool
  fragmentLog : String
  linkOk : Bool
  linkLog : String
  contextLost : Bool
deriving DecidableEq

/-- `buildShader`: on a compile failure with the context live, throw the
driver's info log; otherwise (success, or failure with the context lost)
return the shader. -/
def buildShader (contextLost compileOk : Bool) (infoLog : String) :
    Except String Unit :=
  if compileOk = false ∧ contextLost = false then Except.error infoLog
  else Except.ok ()

/-- `buildProgram`: compile the vertex shader, then the fragment shader, then
check the link status, escalating the first failure's log unless the context
is lost. -/
def buildProgram (env : GLBuildEnv) : Except String Unit := do
  buildShader env.contextLost env.vertexCompileOk env.vertexLog
  buildShader env.contextLost env.fragmentCompileOk env.fragmentLog
  if env.linkOk = false ∧ env.contextLost = false then Except.error env.linkLog
  else Except.ok ()

/-- A compile failure whose driver info log is the empty string, context live. -/
def emptyLogEnv : GLBuildEnv :=
  { vertexCompileOk := false, vertexLog := "", fragmentCompileOk := true,
    fragmentLog := "", linkOk := true, linkLog := "", contextLost := false }

/-- C7 counterexample: a compile failure with no concurrent context loss whose
driver log is empty surfaces the empty message — the code passes the log
through verbatim and nothing guarantees it is non-empty. -/
theorem C7_diagnostic_counterexample :
    buildProgram emptyLogEnv = Except.error "" := by
  rfl

/-- C7 (amended): with the context live, the first failing stage's driver log
text is surfaced verbatim as the fatal error (hence non-empty exactly when
the driver supplies a non-empty log); with the context lost, the same
failures surface nothing at all. -/
theorem C7_compile_link_diagnostics (env : GLBuildEnv) :
    (env.contextLost = false →
      (env.vertexCompileOk = false →
        buildProgram env = Except.error env.vertexLog) ∧
      (env.vertexCompileOk = true → env.fragmentCompileOk = false →
        buildProgram env = Except.error env.fragmentLog) ∧
      (env.vertexCompileOk = true → env.fragmentCompileOk = true →
        env.linkOk = false → buildProgram env = Except.error env.linkLog)) ∧
    (env.contextLost = true → buildProgram env = Except.ok ()) := by
  constructor
  · intro hc
    refine ⟨?_, ?_, ?_⟩
    · intro h1
      simp only [buildProgram, buildShader, hc, h1, if_pos, and_self]
      rfl
    · intro h1 h2
      simp only [buildProgram, buildShader, hc, h1, h2]
      rfl
    · intro h1 h2 h3
      simp only [buildProgram, buildShader, hc, h1, h2, h3]
      rfl
  · intro hc
    simp only [buildProgram, buildShader, hc, and_false, if_false, Bool.true_eq_false,
      and_self]
    rfl

/-- A vertex-stage compile failure with a diagnostic log, context live. -/
def vertexFailEnv : GLBuildEnv :=
  { vertexCompileOk := false, vertexLog := "0:3: syntax error", fragmentCompileOk := true,
    fragmentLog := "", linkOk := true, linkLog := "", contextLost := false }

/-- Every stage failing while the context is lost. -/
def lostBuildEnv : GLBuildEnv :=
  { vertexCompileOk := false, vertexLog := "x", fragmentCompileOk := false,
    fragmentLog := "y", linkOk := false, linkLog := "z", contextLost := true }

/-- Witness for C7: the live failure surfaces exactly the driver log; the
lost-context failure surfaces nothing. -/
theorem C7_compile_link_diagnostics_witness :
    buildProgram vertexFailEnv = Except.error "0:3: syntax error" ∧
    buildProgram lostBuildEnv = Except.ok () :=
  ⟨((C7_compile_link_diagnostics vertexFailEnv).1 rfl).1 rfl,
   (C7_compile_link_diagnostics lostBuildEnv).2 rfl⟩

/-- C8: both texture builders produce a 1×1 image holding the single opaque
black texel (0,0,0,255), clamped to edge on both axes, and every resource
rebuild (context generation) installs exactly this texture before any video
frame can be uploaded. -/
theorem C8_initial_texture_black_texel :
    buildVideoTexture.texels = [(0, 0, 0, 255)] ∧
    buildVideoTexture.width = 1 ∧ buildVideoTexture.height = 1 ∧
    buildVideoTexture.wrapS = WrapMode.clampToEdge ∧
    buildVideoTexture.wrapT = WrapMode.clampToEdge ∧
    simple1BuildVideoTexture.texels = [(0, 0, 0, 255)] ∧
    simple1BuildVideoTexture.width = 1 ∧ simple1BuildVideoTexture.height = 1 ∧
    simple1BuildVideoTexture.wrapS = WrapMode.clampToEdge ∧
    simple1BuildVideoTexture.wrapT = WrapMode.clampToEdge ∧
    (∀ s : LoopState,
      (stepEv s Ev.contextRestoredSignal).2.videoTexture = buildVideoTexture) :=
  ⟨rfl, rfl, rfl, rfl, rfl, rfl, rfl, rfl, rfl, rfl, fun _ => rfl⟩

/-- C9: the geometry is a static quad of four vertices in counter-clockwise
triangle-fan order (positive shoelace sum and positive fan-triangle areas),
with interleaved `[x, y, u, v]` layout (stride 16 bytes, position at offset
0, texcoord at offset 8), positions covering the corners of the clip-space
square `[-1,1]²`, texture coordinates on the unit square matching each
position corner (`u = (x+1)/2`, `v = (1−y)/2`), and the draw call renders it
as a 4-vertex TRIANGLE_FAN. -/
theorem C9_geometry_quad :
    verticesData.length = 16 ∧
    aPositionPointer = ⟨2, 16, 0⟩ ∧
    aTexCoordPointer = ⟨2, 16, 8⟩ ∧
    vertexPosition 0 = (-1, -1) ∧ vertexPosition 1 = (1, -1) ∧
    vertexPosition 2 = (1, 1) ∧ vertexPosition 3 = (-1, 1) ∧
    vertexTexCoord 0 = (0, 1) ∧ vertexTexCoord 1 = (1, 1) ∧
    vertexTexCoord 2 = (1, 0) ∧ vertexTexCoord 3 = (0, 0) ∧
    quadShoelace = 8 ∧
    0 < fanTriangleArea2 1 2 ∧ 0 < fanTriangleArea2 2 3 ∧
    vertexTexCoord 0 = (((vertexPosition 0).1 + 1) / 2, (1 - (vertexPosition 0).2) / 2) ∧
    vertexTexCoord 1 = (((vertexPosition 1).1 + 1) / 2, (1 - (vertexPosition 1).2) / 2) ∧
    vertexTexCoord 2 = (((vertexPosition 2).1 + 1) / 2, (1 - (vertexPosition 2).2) / 2) ∧
    vertexTexCoord 3 = (((vertexPosition 3).1 + 1) / 2, (1 - (vertexPosition 3).2) / 2) ∧
    (∀ (s : LoopState) (v : VideoState) (glError : Nat),
        Event.draw DrawMode.triangleFan 0 4 ∈ (paint s v glError).events) := by
  have h0 : vertexPosition 0 = (-1, -1) := rfl
  have h1 : vertexPosition 1 = (1, -1) := rfl
  have h2 : vertexPosition 2 = (1, 1) := rfl
  have h3 : vertexPosition 3 = (-1, 1) := rfl
  have ht0 : vertexTexCoord 0 = (0, 1) := rfl
  have ht1 : vertexTexCoord 1 = (1, 1) := rfl
  have ht2 : vertexTexCoord 2 = (1, 0) := rfl
  have ht3 : vertexTexCoord 3 = (0, 0) := rfl
  refine ⟨rfl, rfl, rfl, h0, h1, h2, h3, ht0, ht1, ht2, ht3, ?_, ?_, ?_, ?_, ?_, ?_, ?_, ?_⟩
  · simp only [quadShoelace, h0, h1, h2, h3]
    norm_num
  · simp only [fanTriangleArea2, h0, h1, h2]
    norm_num
  · simp only [fanTriangleArea2, h0, h2, h3]
    norm_num
  · rw [ht0, h0, Prod.mk.injEq]
    norm_num
  · rw [ht1, h1, Prod.mk.injEq]
    norm_num
  · rw [ht2, h2, Prod.mk.injEq]
    norm_num
  · rw [ht3, h3, Prod.mk.injEq]
    norm_num
  · intro s v glError
    simp only [paint]
    split <;> simp
